import Mathlib

/-!
Verification of the google-cloud-cpp storage client-side request pipeline
against its design specification.

The development embeds, shallowly, the parts of the code the claims are
about:

* the optional-parameter composition layer
  (`google/cloud/storage/internal/request_parameters.h`);
* the logging decorator (`google/cloud/storage/internal/logging_client.cc`);
* the facade client (`google/cloud/storage/client.h`);
* the retry decorator state machine and the Bigtable error-raising utility,
  whose implementations are not among the provided sources and are
  therefore modelled from the specification (each such definition says so
  in its doc comment).

Machine state that matters to the claims is made explicit: the inner
client of the retry loop is a function from the attempt index to the
(status, response) pair it returns on that attempt, so that "number of
inner invocations" is a number the embedding computes; the logging
decorator threads an explicit inner-client state and an explicit log.
-/

set_option autoImplicit false

namespace GoogleCloudCpp

/-- The classification of a `Status`, per the data model (spec §3): OK,
Transient-failure (retryable) or Permanent-failure (non-retryable). -/
inductive StatusCode where
  | ok
  | transient
  | permanent
deriving DecidableEq, Repr

/-- A `Status` is a (kind, message) pair (spec §3). -/
structure Status where
  code : StatusCode
  message : String
deriving DecidableEq, Repr

/-- Substring containment, used to state "the error message contains ...". -/
def strContains (s sub : String) : Prop :=
  ∃ a b, s = a ++ sub ++ b

/-- Terminal outcome of one public operation call through the retry
decorator: the states `Success`, `Exhausted`, `PermanentFailure` of the
retry state machine (spec §4.3). `success` carries the terminal (status,
response) pair the inner client returned. -/
inductive Outcome (R : Type) where
  | success (status : Status) (response : R)
  | exhausted (message : String)
  | permanentFailure (message : String)
deriving DecidableEq, Repr

/-- Modelled from the spec: the Retry Decorator loop of §4.3 (the
`retry_client` implementation is not among the provided sources; its
tests in `bucket_test.cc` and callers in `client.h` are). `inner i` is
the (status, response) pair the inner client returns on its `i`-th
invocation (0-based); `remaining` is the retry policy's remaining
attempt budget; `i` is the index of the attempt about to be made. The
result pairs the terminal outcome with the total number of inner
invocations performed. Per §4.3: OK returns immediately; a
Permanent-failure stops immediately without consulting the retry policy;
a Transient-failure retries while the budget allows and otherwise ends
Exhausted. Terminal failures carry the messages "Permanent error in
<Op>" / "Retry policy exhausted in <Op>" (§4.3 step 3). -/
def retryLoop {R : Type} (opName : String) (inner : Nat → Status × R) :
    Nat → Nat → Outcome R × Nat
  | remaining, i =>
    let sr := inner i
    match sr.1.code, remaining with
    | StatusCode.ok, _ => (Outcome.success sr.1 sr.2, i + 1)
    | StatusCode.permanent, _ =>
        (Outcome.permanentFailure ("Permanent error in " ++ opName), i + 1)
    | StatusCode.transient, 0 =>
        (Outcome.exhausted ("Retry policy exhausted in " ++ opName), i + 1)
    | StatusCode.transient, b + 1 => retryLoop opName inner b (i + 1)

/-- Modelled from the spec: one public operation call through the Retry
Decorator, starting with a fresh policy clone whose attempt budget is
`budget` (§4.3 step 1: prototypes are cloned fresh for every call). -/
def retryCall {R : Type} (opName : String) (inner : Nat → Status × R)
    (budget : Nat) : Outcome R × Nat :=
  retryLoop opName inner budget 0

/-- Modelled from the spec: the Retry Decorator as seen by the Facade
Client (§4.3 step 3): terminal Success returns the (OK status, response)
pair; terminal Exhausted or PermanentFailure raises the synthesized
fatal error, modelled as `Except.error` carrying its message, so control
never returns normally with a failed status. -/
def retryClientCall {R : Type} (opName : String) (inner : Nat → Status × R)
    (budget : Nat) : Except String (Status × R) :=
  match (retryCall opName inner budget).1 with
  | Outcome.success s r => Except.ok (s, r)
  | Outcome.exhausted m => Except.error m
  | Outcome.permanentFailure m => Except.error m

/-- Embedding of the Facade Client operation-method shape of `client.h`
(e.g. `ListBuckets`, line 83: `return
raw_client_->ListBuckets(request).second.items;`): the method calls the
retry-decorated client, takes the `.second` component of the returned
pair without inspecting `.first`, and unwraps it (`unwrap` is the
projection such as `.items`); a raised error propagates to the caller. -/
def facadeOperation {R A : Type} (opName : String) (inner : Nat → Status × R)
    (budget : Nat) (unwrap : R → A) : Except String A :=
  match retryClientCall opName inner budget with
  | Except.ok p => Except.ok (unwrap p.2)
  | Except.error m => Except.error m

/-- Embedding of `MakeCall` in `logging_client.cc` (lines 36-48): log the
context and the request, invoke the member function on the inner client
once, log the context with the returned status and payload, and return
the response. The inner client is state-passing (`σ` is its state) so
that the number of inner invocations is observable; the log is an
explicit list of lines. -/
def MakeCall {Req Resp σ : Type} (client : Req → σ → (Status × Resp) × σ)
    (showReq : Req → String) (showStatus : Status → String)
    (showResp : Resp → String) (context : String) (req : Req) (st : σ)
    (log : List String) : (Status × Resp) × σ × List String :=
  let log1 := log ++ [context ++ " << " ++ showReq req]
  let response := client req st
  let log2 := log1 ++ [context ++ " >> status=\x7b" ++ showStatus response.1.1 ++
      "\x7d, payload=\x7b" ++ showResp response.1.2 ++ "\x7d"]
  (response.1, response.2, log2)

/-- The optional-parameter state of a request
(`request_parameters.h`): the declared parameter kinds, in declaration
order, each slot holding the kind's stable textual name and the value
currently set for it (`none` when the parameter was never set). A kind
is identified by its position in the list. -/
abbrev ParamState := List (String × Option String)

/-- Embedding of `RequestParameterList::set_parameter`
(`request_parameters.h` lines 44-47 and 76-79): overwrite the slot of
the parameter's kind (`k` is the kind's position in the declaration
list) with the new value; each kind holds at most one value. -/
def set_parameter (k : Nat) (v : String) : ParamState → ParamState
  | [] => []
  | p :: rest =>
    match k with
    | 0 => (p.1, some v) :: rest
    | k' + 1 => p :: set_parameter k' v rest

/-- Embedding of `GenericRequest::set_multiple_parameters`
(`request_parameters.h` lines 148-156): the empty call returns the
request unchanged; otherwise set the head parameter and recurse on the
tail, i.e. apply `set_parameter` left to right. -/
def set_multiple_parameters : List (Nat × String) → ParamState → ParamState
  | [], req => req
  | p :: tail, req => set_multiple_parameters tail (set_parameter p.1 p.2 req)

/-- Embedding of `RequestParameterList::DumpParameters`
(`request_parameters.h` lines 54-58 and 88-95): if the head parameter
has a value, print the separator, the parameter name, `=` and the value,
and recurse with separator `", "`; otherwise recurse with the separator
unchanged. -/
def DumpParameters (sep : String) : ParamState → String
  | [] => ""
  | p :: rest =>
    match p.2 with
    | some v => sep ++ p.1 ++ "=" ++ v ++ DumpParameters ", " rest
    | none => DumpParameters sep rest

/-- The `name=value` entries of exactly the parameters that are set, in
declaration order. -/
def setParamItems (ps : ParamState) : List String :=
  ps.filterMap (fun p => p.2.map (fun v => p.1 ++ "=" ++ v))

/-- Right-fold comma join: the entries separated by `", "`. -/
def joinCommaSep : List String → String
  | [] => ""
  | [x] => x
  | x :: y :: rest => x ++ ", " ++ joinCommaSep (y :: rest)

/-- Modelled from the spec: `HttpRequest::AddWellKnownParameter`, the
transport collaborator's hook called by `AddParametersToHttpRequest`
(its implementation is not among the provided sources). Per §3, an
absent parameter contributes nothing to the wire request; a present one
is encoded onto it. The wire request is modelled as the list of encoded
(name, value) query parameters. -/
def AddWellKnownParameter (req : List (String × String))
    (p : String × Option String) : List (String × String) :=
  match p.2 with
  | none => req
  | some v => req ++ [(p.1, v)]

/-- Embedding of `RequestParameterList::AddParametersToHttpRequest`
(`request_parameters.h` lines 49-52 and 81-86): pass every declared
parameter slot, in declaration order, to the http request's
`AddWellKnownParameter`. -/
def AddParametersToHttpRequest (ps : ParamState)
    (req : List (String × String)) : List (String × String) :=
  match ps with
  | [] => req
  | p :: rest => AddParametersToHttpRequest rest (AddWellKnownParameter req p)

/-- A gRPC transport status: an error code and a message, as consumed by
the Bigtable error-mapping utility. -/
structure GrpcStatus where
  errorCode : Nat
  errorMessage : String
deriving DecidableEq, Repr

/-- What a call to the error-raising utility does to control flow:
raise an error carrying a message, abort the process with a message, or
return control to the caller normally. -/
inductive RaiseOutcome where
  | raised (message : String)
  | aborted (message : String)
  | returnedNormally
deriving DecidableEq, Repr

/-- Modelled from the spec: `RaiseRpcError` of the Bigtable
`throw_delegate` utility (its implementation is not among the provided
sources; its test is). Per §1 and §7: it turns a transport status into a
raised error carrying the given descriptive message when a raising
mechanism is available, and otherwise into an immediate process abort
with the same descriptive message; it never returns control normally. -/
def RaiseRpcError (hasRaisingMechanism : Bool) (_status : GrpcStatus)
    (msg : String) : RaiseOutcome :=
  if hasRaisingMechanism then RaiseOutcome.raised msg
  else RaiseOutcome.aborted msg

/-- If every attempt from index `i` through `i + b` returns a
Transient-failure, the loop with remaining budget `b` performs exactly
`b + 1` further invocations and ends Exhausted. -/
theorem retryLoop_all_transient {R : Type} (opName : String)
    (inner : Nat → Status × R) :
    ∀ (b i : Nat), (∀ j, j ≤ b → (inner (i + j)).1.code = StatusCode.transient) →
      retryLoop opName inner b i =
        (Outcome.exhausted ("Retry policy exhausted in " ++ opName), i + b + 1) := by
  intro b
  induction b with
  | zero =>
      intro i h
      have h0 := h 0 (Nat.le_refl 0)
      simp only [Nat.add_zero] at h0
      simp [retryLoop, h0]
  | succ b ih =>
      intro i h
      have h0 := h 0 (Nat.zero_le _)
      simp only [Nat.add_zero] at h0
      have hrec := ih (i + 1) (fun j hj => by
        have := h (j + 1) (Nat.succ_le_succ hj)
        simpa [Nat.add_assoc, Nat.add_comm 1 j] using this)
      simp only [retryLoop, h0]
      rw [hrec]
      congr 1
      omega

/-- If attempts `i, i+1, ..., i+n-1` return Transient-failures and
attempt `i + n` returns OK, with `n` within the remaining budget `b`,
the loop performs exactly `n + 1` further invocations and ends with the
OK pair of attempt `i + n`. -/
theorem retryLoop_transient_then_ok {R : Type} (opName : String)
    (inner : Nat → Status × R) :
    ∀ (n b i : Nat), n ≤ b →
      (∀ j, j < n → (inner (i + j)).1.code = StatusCode.transient) →
      (inner (i + n)).1.code = StatusCode.ok →
      retryLoop opName inner b i =
        (Outcome.success (inner (i + n)).1 (inner (i + n)).2, i + n + 1) := by
  intro n
  induction n with
  | zero =>
      intro b i _ _ hok
      simp only [Nat.add_zero] at hok ⊢
      cases b with
      | zero => simp [retryLoop, hok]
      | succ b => simp [retryLoop, hok]
  | succ n ih =>
      intro b i hb htrans hok
      have h0 := htrans 0 (Nat.succ_pos n)
      simp only [Nat.add_zero] at h0
      cases b with
      | zero => exact absurd hb (by omega)
      | succ b =>
          have hrec := ih b (i + 1) (Nat.le_of_succ_le_succ hb)
            (fun j hj => by
              have := htrans (j + 1) (Nat.succ_lt_succ hj)
              simpa [Nat.add_assoc, Nat.add_comm 1 j] using this)
            (by
              have : i + 1 + n = i + (n + 1) := by omega
              rw [this]
              exact hok)
          simp only [retryLoop, h0]
          rw [hrec]
          have h1 : i + 1 + n = i + (n + 1) := by omega
          rw [h1]

/-- A terminal Success outcome of the retry loop always carries a status
whose code is OK: the loop only returns `success` on an OK status. -/
theorem retryLoop_success_code {R : Type} (opName : String)
    (inner : Nat → Status × R) :
    ∀ (b i : Nat) (s : Status) (r : R) (n : Nat),
      retryLoop opName inner b i = (Outcome.success s r, n) →
      s.code = StatusCode.ok := by
  intro b
  induction b with
  | zero =>
      intro i s r n h
      cases hc : (inner i).1.code with
      | ok =>
          simp [retryLoop, hc] at h
          rw [← h.1.1]
          exact hc
      | transient => simp [retryLoop, hc] at h
      | permanent => simp [retryLoop, hc] at h
  | succ b ih =>
      intro i s r n h
      cases hc : (inner i).1.code with
      | ok =>
          simp [retryLoop, hc] at h
          rw [← h.1.1]
          exact hc
      | transient =>
          simp only [retryLoop, hc] at h
          exact ih (i + 1) s r n h
      | permanent => simp [retryLoop, hc] at h

/-- If the retry-decorated client returns a pair to the facade, the
status in that pair is OK. -/
theorem retryClientCall_ok_code {R : Type} (opName : String)
    (inner : Nat → Status × R) (budget : Nat) (s : Status) (r : R)
    (h : retryClientCall opName inner budget = Except.ok (s, r)) :
    s.code = StatusCode.ok := by
  unfold retryClientCall at h
  cases hres : (retryCall opName inner budget).1 with
  | success s' r' =>
      rw [hres] at h
      simp at h
      have hfull : retryLoop opName inner budget 0 =
          (Outcome.success s' r', (retryCall opName inner budget).2) := by
        rw [← hres]
        rfl
      rw [← h.1]
      exact retryLoop_success_code opName inner budget 0 s' r'
        (retryCall opName inner budget).2 hfull
  | exhausted m =>
      rw [hres] at h
      simp at h
  | permanentFailure m =>
      rw [hres] at h
      simp at h

/-- A string contains each of its two-sided context substrings. -/
theorem strContains_suffix (s t : String) : strContains (s ++ t) t :=
  ⟨s, "", by rw [String.append_empty]⟩

/-- Setting the same parameter kind twice keeps only the second value. -/
theorem set_parameter_overwrite (k : Nat) (v1 v2 : String) :
    ∀ ps : ParamState,
      set_parameter k v2 (set_parameter k v1 ps) = set_parameter k v2 ps := by
  induction k with
  | zero =>
      intro ps
      cases ps with
      | nil => rfl
      | cons p rest => rfl
  | succ k' ih =>
      intro ps
      cases ps with
      | nil => rfl
      | cons p rest => simp [set_parameter, ih]

/-- `set_multiple_parameters` is the left fold of `set_parameter` over
the argument list. -/
theorem set_multiple_parameters_foldl :
    ∀ (args : List (Nat × String)) (req : ParamState),
      set_multiple_parameters args req =
        args.foldl (fun r p => set_parameter p.1 p.2 r) req := by
  intro args
  induction args with
  | nil => intro req; rfl
  | cons p tail ih =>
      intro req
      simp only [set_multiple_parameters, List.foldl_cons]
      exact ih (set_parameter p.1 p.2 req)

/-- Claim C1: with a retry policy of attempt budget `N`, a run of `N + 1`
consecutive Transient-failure statuses from the inner client yields
exactly `N + 1` inner invocations and a terminal Exhausted error whose
message contains "Retry policy exhausted" and the operation name, while
`N` Transient-failures followed by OK yield exactly `N + 1` invocations
and return the OK response. -/
theorem retry_exhaustion_and_eventual_success {R : Type} (opName : String)
    (inner : Nat → Status × R) (N : Nat) :
    ((∀ i, i ≤ N → (inner i).1.code = StatusCode.transient) →
      ∃ m, retryCall opName inner N = (Outcome.exhausted m, N + 1) ∧
        strContains m "Retry policy exhausted" ∧ strContains m opName) ∧
    ((∀ i, i < N → (inner i).1.code = StatusCode.transient) →
      (inner N).1.code = StatusCode.ok →
      retryCall opName inner N =
        (Outcome.success (inner N).1 (inner N).2, N + 1)) := by
  constructor
  · intro h
    refine ⟨"Retry policy exhausted in " ++ opName, ?_, ?_, ?_⟩
    · have hall := retryLoop_all_transient opName inner N 0
        (fun j hj => by simpa using h j hj)
      simpa [retryCall] using hall
    · exact ⟨"", " in " ++ opName, rfl⟩
    · exact strContains_suffix "Retry policy exhausted in " opName
  · intro ht hok
    have hrun := retryLoop_transient_then_ok opName inner N N 0 (Nat.le_refl N)
      (fun j hj => by simpa using ht j hj) (by simpa using hok)
    simpa [retryCall] using hrun

/-- Claim C1, witness: with budget 2, three Transient-failures end
Exhausted after 3 invocations; two Transient-failures followed by OK end
Success after 3 invocations. -/
theorem retry_exhaustion_and_eventual_success_witness :
    (∃ m, retryCall "GetBucketMetadata"
        (fun _ => ({ code := StatusCode.transient, message := "try-again" },
          (0 : Nat))) 2 =
        (Outcome.exhausted m, 3) ∧
      strContains m "Retry policy exhausted" ∧
      strContains m "GetBucketMetadata") ∧
    retryCall "GetBucketMetadata"
        (fun i => if i < 2
          then ({ code := StatusCode.transient, message := "try-again" },
            (0 : Nat))
          else ({ code := StatusCode.ok, message := "" }, 7)) 2 =
      (Outcome.success { code := StatusCode.ok, message := "" } 7, 3) := by
  constructor
  · exact (retry_exhaustion_and_eventual_success "GetBucketMetadata"
      (fun _ => ({ code := StatusCode.transient, message := "try-again" },
        (0 : Nat))) 2).1 (fun i _ => rfl)
  · have h := (retry_exhaustion_and_eventual_success "GetBucketMetadata"
      (fun i => if i < 2
        then ({ code := StatusCode.transient, message := "try-again" },
          (0 : Nat))
        else ({ code := StatusCode.ok, message := "" }, 7)) 2).2
      (fun i hi => by simp [hi]) (by simp)
    simpa using h

/-- Claim C2: a Permanent-failure on the first attempt terminates the
call after exactly one inner invocation, for every remaining retry
budget (the retry policy is never consulted), with a fatal error whose
message contains "Permanent error" and the operation name. -/
theorem retry_permanent_failure_single_invocation {R : Type} (opName : String)
    (inner : Nat → Status × R) (budget : Nat)
    (h : (inner 0).1.code = StatusCode.permanent) :
    ∃ m, retryCall opName inner budget = (Outcome.permanentFailure m, 1) ∧
      strContains m "Permanent error" ∧ strContains m opName := by
  refine ⟨"Permanent error in " ++ opName, ?_, ?_, ?_⟩
  · cases budget with
    | zero => simp [retryCall, retryLoop, h]
    | succ b => simp [retryCall, retryLoop, h]
  · exact ⟨"", " in " ++ opName, rfl⟩
  · exact strContains_suffix "Permanent error in " opName

/-- Claim C2, witness: a Permanent-failure with remaining budget 3 gives
one invocation and a "Permanent error" message naming the operation. -/
theorem retry_permanent_failure_single_invocation_witness :
    ∃ m, retryCall "GetBucketMetadata"
        (fun _ => ({ code := StatusCode.permanent, message := "not found" },
          (0 : Nat))) 3 =
        (Outcome.permanentFailure m, 1) ∧
      strContains m "Permanent error" ∧ strContains m "GetBucketMetadata" :=
  retry_permanent_failure_single_invocation "GetBucketMetadata"
    (fun _ => ({ code := StatusCode.permanent, message := "not found" },
      (0 : Nat))) 3 rfl

/-- Claim C8: with a zero-attempt budget, a Transient-failure on the
very first attempt terminates the call as Exhausted after exactly one
inner invocation — the inner client is never invoked a second time. -/
theorem retry_zero_budget_fails_fast {R : Type} (opName : String)
    (inner : Nat → Status × R)
    (h : (inner 0).1.code = StatusCode.transient) :
    ∃ m, retryCall opName inner 0 = (Outcome.exhausted m, 1) ∧
      strContains m "Retry policy exhausted" := by
  refine ⟨"Retry policy exhausted in " ++ opName, ?_, ⟨"", " in " ++ opName, rfl⟩⟩
  simp [retryCall, retryLoop, h]

/-- Claim C8, witness: budget 0 and an always-Transient inner client give
exactly one invocation and an Exhausted error. -/
theorem retry_zero_budget_fails_fast_witness :
    ∃ m, retryCall "GetBucketMetadata"
        (fun _ => ({ code := StatusCode.transient, message := "try-again" },
          (0 : Nat))) 0 =
        (Outcome.exhausted m, 1) ∧
      strContains m "Retry policy exhausted" :=
  retry_zero_budget_fails_fast "GetBucketMetadata"
    (fun _ => ({ code := StatusCode.transient, message := "try-again" },
      (0 : Nat))) rfl

/-- Claim C3: a Facade Client operation method returns the unwrapped
response value exactly when the retry-decorated client returned an OK
status, propagates the decorator's fatal error on failure, and never
returns control normally while a failed Status goes unexamined. -/
theorem facade_unwraps_ok_and_surfaces_errors {R A : Type} (opName : String)
    (inner : Nat → Status × R) (budget : Nat) (unwrap : R → A) :
    (∀ s r, retryClientCall opName inner budget = Except.ok (s, r) →
      s.code = StatusCode.ok ∧
      facadeOperation opName inner budget unwrap = Except.ok (unwrap r)) ∧
    (∀ m, retryClientCall opName inner budget = Except.error m →
      facadeOperation opName inner budget unwrap = Except.error m) ∧
    (∀ a, facadeOperation opName inner budget unwrap = Except.ok a →
      ∃ s r, retryClientCall opName inner budget = Except.ok (s, r) ∧
        s.code = StatusCode.ok ∧ a = unwrap r) := by
  refine ⟨?_, ?_, ?_⟩
  · intro s r hok
    refine ⟨retryClientCall_ok_code opName inner budget s r hok, ?_⟩
    simp [facadeOperation, hok]
  · intro m herr
    simp [facadeOperation, herr]
  · intro a ha
    cases hres : retryClientCall opName inner budget with
    | ok p =>
        refine ⟨p.1, p.2, ?_, ?_, ?_⟩
        · exact rfl
        · exact retryClientCall_ok_code opName inner budget p.1 p.2 hres
        · simp [facadeOperation, hres] at ha
          exact ha.symm
    | error m =>
        simp [facadeOperation, hres] at ha

/-- Claim C3, witness: an inner client that returns OK at once makes the
facade return the unwrapped value, and the terminal status was OK. -/
theorem facade_unwraps_ok_and_surfaces_errors_witness :
    Status.code { code := StatusCode.ok, message := "" } = StatusCode.ok ∧
    facadeOperation "ListBuckets"
      (fun _ => ({ code := StatusCode.ok, message := "" }, (42 : Nat))) 0 id =
      Except.ok 42 :=
  (facade_unwraps_ok_and_surfaces_errors "ListBuckets"
    (fun _ => ({ code := StatusCode.ok, message := "" }, (42 : Nat))) 0 id).1
    { code := StatusCode.ok, message := "" } 42 rfl

/-- Claim C4: one invocation of the logging decorator's `MakeCall`
returns exactly the (status, response) pair the inner client returned,
both components unaltered, and invokes the inner client exactly once
(the instrumented inner state advances by exactly one call). -/
theorem logging_decorator_transparent :
    (∀ (Req Resp σ : Type) (client : Req → σ → (Status × Resp) × σ)
        (showReq : Req → String) (showStatus : Status → String)
        (showResp : Resp → String) (context : String) (req : Req) (st : σ)
        (log : List String),
      (MakeCall client showReq showStatus showResp context req st log).1 =
          (client req st).1 ∧
      (MakeCall client showReq showStatus showResp context req st log).2.1 =
          (client req st).2) ∧
    (∀ (Req Resp : Type) (f : Req → Status × Resp)
        (showReq : Req → String) (showStatus : Status → String)
        (showResp : Resp → String) (context : String) (req : Req)
        (calls : Nat) (log : List String),
      (MakeCall (fun r (c : Nat) => (f r, c + 1)) showReq showStatus showResp
          context req calls log).2.1 = calls + 1) := by
  constructor
  · intro Req Resp σ client showReq showStatus showResp context req st log
    exact ⟨rfl, rfl⟩
  · intro Req Resp f showReq showStatus showResp context req calls log
    rfl

/-- Claim C5: the parameter dump prints exactly the parameters that were
set, as `name=value` entries in declaration order separated by `", "`
after the caller's leading separator; a parameter never set contributes
nothing to the dump. -/
theorem dump_prints_exactly_set_parameters (sep : String) (ps : ParamState) :
    DumpParameters sep ps =
      match setParamItems ps with
      | [] => ""
      | items => sep ++ joinCommaSep items := by
  induction ps generalizing sep with
  | nil => rfl
  | cons p rest ih =>
      cases hv : p.2 with
      | none =>
          have hd : DumpParameters sep (p :: rest) = DumpParameters sep rest := by
            simp [DumpParameters, hv]
          have hs : setParamItems (p :: rest) = setParamItems rest := by
            simp [setParamItems, hv]
          rw [hd, hs, ih sep]
      | some v =>
          have hd : DumpParameters sep (p :: rest) =
              sep ++ p.1 ++ "=" ++ v ++ DumpParameters ", " rest := by
            simp [DumpParameters, hv]
          have hs : setParamItems (p :: rest) =
              (p.1 ++ "=" ++ v) :: setParamItems rest := by
            simp [setParamItems, hv]
          rw [hd, hs, ih ", "]
          cases hr : setParamItems rest with
          | nil => simp [joinCommaSep, String.append_assoc]
          | cons x xs => simp [joinCommaSep, String.append_assoc]

/-- Claim C6: each parameter kind holds at most one value: setting kind
`k` to `v1` and then to `v2` leaves the request in the same state as
setting `v2` alone (last-write-wins). -/
theorem set_parameter_last_write_wins (k : Nat) (v1 v2 : String)
    (ps : ParamState) :
    set_parameter k v2 (set_parameter k v1 ps) = set_parameter k v2 ps :=
  set_parameter_overwrite k v1 v2 ps

/-- Claim C7: applying the declared parameters to an http request adds
exactly the present parameters, in declaration order; a never-set
parameter contributes nothing to the wire request. -/
theorem add_parameters_only_present (ps : ParamState)
    (req : List (String × String)) :
    AddParametersToHttpRequest ps req =
      req ++ ps.filterMap (fun p => p.2.map (fun v => (p.1, v))) := by
  induction ps generalizing req with
  | nil => simp [AddParametersToHttpRequest]
  | cons p rest ih =>
      cases hv : p.2 with
      | none =>
          simp [AddParametersToHttpRequest, AddWellKnownParameter, hv, ih]
      | some v =>
          simp [AddParametersToHttpRequest, AddWellKnownParameter, hv, ih]

/-- Claim C9: `RaiseRpcError` never returns control normally: with a
raising mechanism available it raises an error carrying the given
message, and otherwise it aborts the process with the same message. -/
theorem raise_rpc_error_never_returns (hasRaisingMechanism : Bool)
    (status : GrpcStatus) (msg : String) :
    RaiseRpcError hasRaisingMechanism status msg ≠ RaiseOutcome.returnedNormally ∧
    (RaiseRpcError hasRaisingMechanism status msg = RaiseOutcome.raised msg ∨
      RaiseRpcError hasRaisingMechanism status msg = RaiseOutcome.aborted msg) := by
  cases hasRaisingMechanism <;> simp [RaiseRpcError]

/-- Claim C10: `set_multiple_parameters` with no arguments returns the
request unchanged, with arguments it equals applying `set_parameter`
sequentially left to right, and for two arguments of the same kind the
rightmost wins. -/
theorem set_multiple_parameters_is_sequential (req : ParamState) :
    set_multiple_parameters [] req = req ∧
    (∀ args : List (Nat × String),
      set_multiple_parameters args req =
        args.foldl (fun r p => set_parameter p.1 p.2 r) req) ∧
    (∀ (k : Nat) (v1 v2 : String),
      set_multiple_parameters [(k, v1), (k, v2)] req =
        set_parameter k v2 req) := by
  refine ⟨rfl, fun args => set_multiple_parameters_foldl args req, ?_⟩
  intro k v1 v2
  show set_parameter k v2 (set_parameter k v1 req) = set_parameter k v2 req
  exact set_parameter_overwrite k v1 v2 req

end GoogleCloudCpp
